import Mathlib

/-!
Formal model of the `scalogramify` batch conversion utility (`src/main.py`).

The program reads accelerometer time-series records from a `.aaa` text
format and renders wavelet scalograms to image files.  This development
embeds the source shallowly:

* text is `String` / `List Char`; Python `str.split`, `str.strip`,
  `str.endswith`, `int(...)` and `float(...)` are transcribed as structural
  Lean functions over exact rationals (the modelled inputs are finite
  decimals, so `float` values are represented exactly by `ℚ`; binary
  rounding, `inf` and `nan` are outside the modelled domain);
* fallible code (assertions, `IndexError`, `ValueError`, pandas and numpy
  errors) returns `Except String`;
* the externally visible effects of a run (printing, loading a file,
  calling `pywt.cwt`, creating the output directory, writing the figure)
  are recorded as an event trace.
-/

/-! ## Python string helpers -/

/-- Python `s.split(sep)` for a one-character separator, on `List Char`:
splits at every occurrence of `sep`, keeping empty segments.  The
accumulator holds the current segment reversed. -/
def splitOnCharAux (sep : Char) : List Char → List Char → List (List Char)
  | [], acc => [acc.reverse]
  | c :: cs, acc =>
    if c == sep then acc.reverse :: splitOnCharAux sep cs []
    else splitOnCharAux sep cs (c :: acc)

/-- Python `s.split(sep)`; `"".split(sep) = [""]`, so the result is always
nonempty. -/
def splitOnChar (sep : Char) (cs : List Char) : List (List Char) :=
  splitOnCharAux sep cs []

/-- Python `s.strip()`: remove leading and trailing whitespace. -/
def trimChars (cs : List Char) : List Char :=
  ((cs.dropWhile Char.isWhitespace).reverse.dropWhile Char.isWhitespace).reverse

/-- Python `s.endswith(suf)`: the last `suf.length` characters equal `suf`
(`False` when `s` is shorter than `suf`, `True` for the empty suffix). -/
def strEndsWith (s suf : String) : Bool :=
  s.data.drop (s.data.length - suf.data.length) == suf.data

/-! ## Python numeric literal parsing (`int(...)`, `float(...)`) -/

/-- Decimal digit run to a natural number, `none` when empty or when a
non-digit occurs (Python `int` underscores and unicode digits are outside
the modelled domain). -/
def digitsToNatAux : List Char → Nat → Option Nat
  | [], acc => some acc
  | c :: cs, acc =>
    if c.isDigit then digitsToNatAux cs (acc * 10 + (c.toNat - 48)) else none

/-- Nonempty all-digit run to `Nat`, else `none`. -/
def digitsToNat? (cs : List Char) : Option Nat :=
  if cs.isEmpty then none else digitsToNatAux cs 0

/-- Value of an all-digit run (callers check digit-ness separately). -/
def natOfDigits (cs : List Char) : Nat :=
  cs.foldl (fun acc c => acc * 10 + (c.toNat - 48)) 0

/-- Python `int(s)` on an already-stripped string: optional sign then a
nonempty digit run. -/
def parseInt? (cs : List Char) : Option Int :=
  match cs with
  | '+' :: rest => (digitsToNat? rest).map Int.ofNat
  | '-' :: rest => (digitsToNat? rest).map (fun m => -(m : Int))
  | _ => (digitsToNat? cs).map Int.ofNat

/-- Unsigned decimal mantissa of a Python float literal:
`digits`, `digits.digits`, `digits.` or `.digits`. -/
def parseDecimal? (cs : List Char) : Option ℚ :=
  match splitOnChar '.' cs with
  | [ip] => (digitsToNat? ip).map (fun m => (m : ℚ))
  | [ip, fp] =>
    if (ip.isEmpty && fp.isEmpty) || !(ip.all Char.isDigit && fp.all Char.isDigit) then
      none
    else
      some ((natOfDigits ip : ℚ) + (natOfDigits fp : ℚ) / (10 : ℚ) ^ fp.length)
  | _ => none

/-- Python `float(s)` on an already-stripped string: optional sign,
decimal mantissa, optional `e`/`E` integer exponent (`inf`/`nan` are
outside the modelled domain). -/
def parseFloat? (cs : List Char) : Option ℚ :=
  let signBody : ℚ × List Char :=
    match cs with
    | '+' :: r => (1, r)
    | '-' :: r => (-1, r)
    | r => (1, r)
  match splitOnChar 'e' (signBody.2.map (fun c => if c == 'E' then 'e' else c)) with
  | [mant] => (parseDecimal? mant).map (fun q => signBody.1 * q)
  | [mant, ex] => do
    let m ← parseDecimal? mant
    let e ← parseInt? ex
    pure (signBody.1 * m * (10 : ℚ) ^ e)
  | _ => none

/-! ## numpy and pandas -/

/-- `np.arange(start, stop, step)` in exact arithmetic: `step = 0` raises
`ZeroDivisionError`; otherwise the length is `max 0 ⌈(stop - start)/step⌉`
and element `i` is `start + i * step`. -/
def np_arange (start stop step : ℚ) : Except String (List ℚ) :=
  if step = 0 then Except.error "ZeroDivisionError: division by zero"
  else
    Except.ok
      ((List.range (Int.ceil ((stop - start) / step)).toNat).map
        (fun i : Nat => start + (i : ℚ) * step))

/-- `np.arange(start, stop)` on integers: `start, start+1, ..., stop-1`. -/
def np_arange_nat (start stop : Nat) : List Nat :=
  (List.range (stop - start)).map (fun i => i + start)

/-- One `.aaa` input file: the first line (without its trailing newline)
and the subsequent data lines, each pre-tokenized into its comma-separated
numeric fields. -/
structure AaaFile where
  headerLine : String
  dataRows : List (List ℚ)

/-- `pd.read_csv(ffp, header=None, skiprows=1, usecols=[0])` from
`load_aaa` (src line 16): tokenize the lines after the header and keep
column 0 only.  An empty data section raises `EmptyDataError`.  Uniform
nonempty rows are modelled exactly; ragged tables (where pandas would
raise `ParserError` for a row wider than the first, or pad a narrower row
with NaN) are conservatively mapped to an error, and no claim depends on
them.  Because of `usecols=[0]` the resulting frame always has exactly one
column, whatever the width of the table. -/
def read_csv_col0 (rows : List (List ℚ)) : Except String (List ℚ) :=
  match rows with
  | [] => Except.error "EmptyDataError: No columns to parse from file"
  | r0 :: _ =>
    if rows.all (fun r => r.length == r0.length && !r.isEmpty) then
      Except.ok (rows.map (fun r => r.headD 0))
    else
      Except.error "ParserError: inconsistent number of fields"

/-! ## File Loader (`load_aaa`, src lines 13-34) -/

/-- Header parsing of `load_aaa` (src lines 22-25):
`header_line = f.readline().split(",")`,
`dt = float(header_line[-1].strip())`,
`n_entries = int(header_line[-2].strip())`.
`split(",")` always yields at least one field, so `[-1]` cannot fail;
`[-2]` raises `IndexError` when there are fewer than two fields (Python
`l[-2]` is `l[len(l)-2]` guarded by that bound).  Returns
`(n_entries, dt)`. -/
def parseHeader (line : String) : Except String (Int × ℚ) :=
  let fields := splitOnChar ',' line.data
  match parseFloat? (trimChars (fields.getLastD [])) with
  | none => Except.error "ValueError: could not convert string to float"
  | some dt =>
    if 2 ≤ fields.length then
      match parseInt? (trimChars (fields.getD (fields.length - 2) [])) with
      | none => Except.error "ValueError: invalid literal for int() with base 10"
      | some n => Except.ok (n, dt)
    else Except.error "IndexError: list index out of range"

/-- `load_aaa` (src lines 13-34).  Order of operations follows the source:
read the data table, assert a single column, parse the header, assert the
row count matches `n_entries`, build
`time_values = np.arange(0.0, n_entries * dt, dt)[:n_entries]`, and return
`(time_values, df.iloc[:, 0].values)`.  With `usecols=[0]` the frame's
column count is identically 1, so the first assertion (src line 19,
"Ensure only single column") compares `1 == 1` and can never fail. -/
def load_aaa (f : AaaFile) : Except String (List ℚ × List ℚ) :=
  match read_csv_col0 f.dataRows with
  | Except.error e => Except.error e
  | Except.ok col =>
    -- assert df.shape[1] == 1  (df.shape[1] is 1 by construction)
    if (1 : Nat) = 1 then
      match parseHeader f.headerLine with
      | Except.error e => Except.error e
      | Except.ok (n_entries, dt) =>
        -- assert df.shape[0] == n_entries
        if (col.length : Int) = n_entries then
          match np_arange 0 ((n_entries : ℚ) * dt) dt with
          | Except.error e => Except.error e
          | Except.ok ts => Except.ok (ts.take n_entries.toNat, col)
        else Except.error "AssertionError"
    else Except.error "AssertionError"

/-! ## Scalogram Renderer (`generate_scalogram`, src lines 36-91)

The in-memory plotting calls (`plt.figure`, `plt.pcolormesh`, labels,
colorbar, title) have no externally visible effect and are not modelled;
the recorded effects are the `pywt.cwt` invocation, the output-directory
creation, and the figure write. -/

/-- One externally visible action of a run. -/
inductive Event where
  | msg : String → Event
  | loadCall : String → Event
  | cwtCall : List ℚ → String → List Nat → ℚ → Event
  | ensureDir : String → Event
  | savefig : String → Event
deriving DecidableEq

/-- Keyword parameters of `generate_scalogram` with their defaults
(src lines 36-45): `wavelet='morl'`, `scales=None`, `sampling_period=1`,
`output_folder='out'`, `filename='spectrogram.png'`. -/
structure ScaloOptions where
  wavelet : String
  scales : Option (List Nat)
  sampling_period : ℚ
  output_folder : String
  filename : String

/-- `os.path.basename`-style final path component (the part after the
last `/`), used to model `os.path.splitext`. -/
def basenameOf (p : String) : List Char :=
  (p.data.reverse.takeWhile (fun c => c != '/')).reverse

/-- The extension of a path as computed by `os.path.splitext`: the part of
the basename from its last dot on, where leading dots of the basename do
not count (so `.aaa` has no extension). -/
def splitextExtChars (b : List Char) : List Char :=
  let rest := b.drop (b.takeWhile (fun c => c == '.')).length
  if rest.any (fun c => c == '.') then
    '.' :: (rest.reverse.takeWhile (fun c => c != '.')).reverse
  else []

/-- The file actually written by `plt.savefig(p)`: when `p` has no
extension, matplotlib falls back to the default format and saves to
`p.rstrip('.') + '.png'`; otherwise it saves to `p` itself. -/
def savefigWritten (p : String) : String :=
  if splitextExtChars (basenameOf p) = [] then
    String.mk ((p.data.reverse.dropWhile (fun c => c == '.')).reverse ++ ".png".data)
  else p

/-- `generate_scalogram(x, y, ...)` (src lines 36-91), as the trace of its
externally visible actions.  `x` only feeds `plt.pcolormesh` and produces
no external effect.  If `scales` is `None` it is set to
`np.arange(1, 128)` (src lines 68-69); then
`pywt.cwt(y, scales, wavelet, sampling_period=sampling_period)` runs
(src line 72), the output directory is created if missing (src lines
75-76), and the figure is saved to
`os.path.join(output_folder, filename.split('.')[0])` (src line 90). -/
def generate_scalogram (x y : List ℚ) (opts : ScaloOptions) : List Event :=
  let scales :=
    match opts.scales with
    | none => np_arange_nat 1 128
    | some s => s
  let stem := String.mk ((splitOnChar '.' opts.filename.data).headD [])
  [Event.cwtCall y opts.wavelet scales opts.sampling_period,
   Event.ensureDir opts.output_folder,
   Event.savefig (savefigWritten (opts.output_folder ++ "/" ++ stem))]

/-! ## Batch Driver (`process_aaa_files`, src lines 93-111) -/

/-- The observable file system: maps a directory path to its listing
(`os.listdir` order), or `none` when the directory does not exist.  Only
`.aaa` entries are ever opened, so every entry carries `AaaFile` content. -/
abbrev FileSystem := String → Option (List (String × AaaFile))

/-- Parameters of the single `generate_scalogram` call in the driver
(src line 111): only `x`, `y` and `filename` are passed, every other
keyword keeps its default. -/
def defaultOpts (filename : String) : ScaloOptions :=
  ⟨"morl", none, 1, "out", filename⟩

/-- The loop body of `process_aaa_files` (src lines 106-111) over the
directory listing.  For each entry ending in `.aaa`: print, load (an
uncaught loader exception aborts the whole run here, carrying the partial
trace), then render with `filename = f'{Path(file_path).name}.png'`.
`os.path.join(input_directory, filename)` is `dir ++ "/" ++ name` for the
directory names used here. -/
def processEntries (dir : String) : List (String × AaaFile) → List Event × Except String Unit
  | [] => ([], Except.ok ())
  | (name, file) :: rest =>
    if strEndsWith name ".aaa" then
      match load_aaa file with
      | Except.error e =>
        ([Event.msg ("Processing file: " ++ (dir ++ "/" ++ name)),
          Event.loadCall (dir ++ "/" ++ name)], Except.error e)
      | Except.ok (x, y) =>
        (Event.msg ("Processing file: " ++ (dir ++ "/" ++ name)) ::
           Event.loadCall (dir ++ "/" ++ name) ::
           (generate_scalogram x y (defaultOpts (name ++ ".png")) ++
             (processEntries dir rest).1),
         (processEntries dir rest).2)
    else processEntries dir rest

/-- `process_aaa_files(input_directory)` (src lines 93-111): if the
directory does not exist, print a diagnostic and return; otherwise run the
loop over the listing. -/
def process_aaa_files (fs : FileSystem) (input_directory : String) :
    List Event × Except String Unit :=
  match fs input_directory with
  | none =>
    ([Event.msg ("The directory " ++ input_directory ++ " does not exist.")],
     Except.ok ())
  | some entries => processEntries input_directory entries

/-! ## Trace observations -/

/-- Paths passed to the loader, in order. -/
def loadPaths : List Event → List String
  | [] => []
  | Event.loadCall p :: rest => p :: loadPaths rest
  | _ :: rest => loadPaths rest

/-- Files written by `plt.savefig`, in order. -/
def savefigPaths : List Event → List String
  | [] => []
  | Event.savefig p :: rest => p :: savefigPaths rest
  | _ :: rest => savefigPaths rest

/-- The `sampling_period` argument of each `pywt.cwt` call, in order. -/
def cwtPeriods : List Event → List ℚ
  | [] => []
  | Event.cwtCall _ _ _ sp :: rest => sp :: cwtPeriods rest
  | _ :: rest => cwtPeriods rest

/-- The `scales` argument of each `pywt.cwt` call, in order. -/
def cwtScalesLists : List Event → List (List Nat)
  | [] => []
  | Event.cwtCall _ _ sc _ :: rest => sc :: cwtScalesLists rest
  | _ :: rest => cwtScalesLists rest

/-! ## Concrete inputs used as witnesses and counterexamples -/

/-- A well-formed file: header count 3, sampling interval `0.5`. -/
def demoFile : AaaFile := ⟨"h,3,0.5", [[0], [1], [0]]⟩

/-- A directory `in` holding only `sample.aaa` (content `demoFile`). -/
def demoFS : FileSystem :=
  fun d => if d = "in" then some [("sample.aaa", demoFile)] else none

/-- The spec scenario file for the output-naming claim: header
`...,3,0.01` and three single-column data rows. -/
def sampleFile : AaaFile := ⟨"h,3,0.01", [[1], [2], [3]]⟩

/-- A directory `in` holding only `sample.aaa` (content `sampleFile`). -/
def sampleFS : FileSystem :=
  fun d => if d = "in" then some [("sample.aaa", sampleFile)] else none

/-- A file whose data table has two columns in every row but whose row
count matches the declared count. -/
def twoColFile : AaaFile := ⟨"h,3,0.01", [[1, 2], [3, 4], [5, 6]]⟩

/-- A file with two data rows but declared count 3. -/
def badFile : AaaFile := ⟨"h,3,0.5", [[1], [2]]⟩

/-- A file system with no directories at all. -/
def noFS : FileSystem := fun _ => none

/-! ## Spectrogram Renderer (spec section 4.2)

The repository imports `scipy.signal.spectrogram` (src line 8) but the
Spectrogram Renderer itself — the alternate Transform+Render entry point
of spec sections 2 and 4.2 — is not present under `src/`; only this
that statement declares it.  The definitions below are therefore modelled from
the spec rather than transcribed from source. -/

/-- The quantities of one spectrogram rendering relevant to its contract:
the segment length handed to the PSD routine, the raw power surface, and
the surface after decibel conversion. -/
structure SpectrogramResult where
  npersegUsed : Nat
  Sxx : List (List ℝ)
  SxxDb : List (List ℝ)

/-- Modelled from the spec: the decibel conversion of the missing
Spectrogram Renderer, "Convert power values to a logarithmic (decibel)
scale: `10 * log10(power)`", applied to every bin with no clamping of
zero-power bins. -/
noncomputable def toDb (p : ℝ) : ℝ := 10 * Real.logb 10 p

/-- Modelled from the spec: the missing Spectrogram Renderer
(spec section 4.2).  `psd` abstracts the underlying windowed-FFT routine
(`scipy.signal.spectrogram`, external library code), taking the value
sequence and the segment length; the renderer invokes it "with a fixed
segment length of 256 samples and default overlap/window policy" and
converts every power value to decibels with `toDb`. -/
noncomputable def generate_spectrogram (psd : List ℚ → Nat → List (List ℝ))
    (y : List ℚ) : SpectrogramResult :=
  ⟨256, psd y 256, (psd y 256).map (fun row => row.map toDb)⟩

/-! ## Sanity checks of the embedding on concrete data -/

example : parseFloat? "0.01".data = some (1/100 : ℚ) := by with_unfolding_all rfl
example : parseFloat? "0.5".data = some (1/2 : ℚ) := by with_unfolding_all rfl
example : parseFloat? "-1.5e2".data = some (-150 : ℚ) := by with_unfolding_all rfl
example : parseInt? "3".data = some 3 := by decide
example : parseHeader "h,3,0.5" = Except.ok (3, 1/2) := by with_unfolding_all rfl
example : load_aaa demoFile = Except.ok ([0, 1/2, 1], [0, 1, 0]) := by
  with_unfolding_all rfl
example : (process_aaa_files demoFS "in").2 = Except.ok () := by
  with_unfolding_all rfl

/-! ## Trace bookkeeping lemmas -/

theorem loadPaths_append (l1 l2 : List Event) :
    loadPaths (l1 ++ l2) = loadPaths l1 ++ loadPaths l2 := by
  induction l1 with
  | nil => rfl
  | cons e rest ih => cases e <;> simp [loadPaths, ih]

theorem savefigPaths_append (l1 l2 : List Event) :
    savefigPaths (l1 ++ l2) = savefigPaths l1 ++ savefigPaths l2 := by
  induction l1 with
  | nil => rfl
  | cons e rest ih => cases e <;> simp [savefigPaths, ih]

theorem cwtPeriods_append (l1 l2 : List Event) :
    cwtPeriods (l1 ++ l2) = cwtPeriods l1 ++ cwtPeriods l2 := by
  induction l1 with
  | nil => rfl
  | cons e rest ih => cases e <;> simp [cwtPeriods, ih]

/-- Every `pywt.cwt` call issued by the driver loop uses
`sampling_period = 1`. -/
theorem cwtPeriods_processEntries (dir : String)
    (entries : List (String × AaaFile)) :
    (cwtPeriods (processEntries dir entries).1).all (fun sp => sp == 1) = true := by
  induction entries with
  | nil => rfl
  | cons hd tl ih =>
    obtain ⟨name, file⟩ := hd
    by_cases hext : strEndsWith name ".aaa" = true
    · rcases hload : load_aaa file with e | ⟨xv, yv⟩
      · simp [processEntries, hext, hload, cwtPeriods]
      · simp only [processEntries, hext, if_true, hload]
        simp [cwtPeriods, cwtPeriods_append, generate_scalogram, defaultOpts, ih]
    · simp only [processEntries, hext, if_false]
      exact ih

/-! ## Claims -/

/-- Claim C1 (refuted; evaluation of the code at the spec's own scenario):
the batch driver on a directory holding exactly one file `sample.aaa`
(header `...,3,0.01`, three data rows) completes without error and writes
exactly one image — but it is named `out/sample.png`, not the
`out/sample.aaa.png` that the claim's literal dot-concatenation demands:
the save path is `os.path.join('out', filename.split('.')[0])` (src line
90), which truncates `sample.aaa.png` to `sample`, and matplotlib then
appends `.png` because the path has no extension. -/
theorem C1_output_name_eval :
    savefigPaths (process_aaa_files sampleFS "in").1 = ["out/sample.png"] ∧
    savefigPaths (process_aaa_files sampleFS "in").1 ≠ ["out/sample.aaa.png"] ∧
    (process_aaa_files sampleFS "in").2 = Except.ok () := by
  have h1 : savefigPaths (process_aaa_files sampleFS "in").1 = ["out/sample.png"] := by
    with_unfolding_all rfl
  refine ⟨h1, ?_, by with_unfolding_all rfl⟩
  rw [h1]
  decide

/-- Claim C2 (refuted; evaluation of the code at a two-column input): a
file whose data table has two columns in every row, with matching row
count, is accepted by `load_aaa`, which silently returns only the first
column — `pd.read_csv(..., usecols=[0])` (src line 16) discards the other
column before the single-column assertion (src line 19) is checked, so
that assertion compares `1 == 1` and cannot fire. -/
theorem C2_two_column_table_loads_silently :
    load_aaa twoColFile = Except.ok ([0, 1/100, 1/50], [1, 3, 5]) := by
  with_unfolding_all rfl

/-- Claim C3 (spec-modelled; the Spectrogram Renderer is absent from
`src/`, which only imports `scipy.signal.spectrogram`): the renderer hands
the underlying PSD routine the fixed segment length 256, and converts
every power value of the returned surface — zero-power bins included,
with no clamping — to decibels as `10 * log10(power)`. -/
theorem C3_spectrogram_psd_db (psd : List ℚ → Nat → List (List ℝ)) (y : List ℚ) :
    (generate_spectrogram psd y).npersegUsed = 256 ∧
    (generate_spectrogram psd y).SxxDb =
      (generate_spectrogram psd y).Sxx.map
        (fun row => row.map (fun p => 10 * (Real.log p / Real.log 10))) ∧
    (∀ p : ℝ, toDb p = 10 * (Real.log p / Real.log 10)) := by
  refine ⟨rfl, ?_, fun p => by simp [toDb, Real.logb]⟩
  simp [generate_spectrogram, toDb, Real.logb]

/-- Claim C4: in every run of the batch driver, every `pywt.cwt` call is
made with the default `sampling_period = 1` — the call at src line 111
passes only `x`, `y` and `filename` — and concretely, on a directory
whose one file declares `dt = 0.5` in its header, the wavelet transform
still receives sampling period 1. -/
theorem C4_driver_ignores_header_dt :
    (∀ (fs : FileSystem) (dir : String),
        (cwtPeriods (process_aaa_files fs dir).1).all (fun sp => sp == 1) = true) ∧
    parseHeader demoFile.headerLine = Except.ok (3, 1/2) ∧
    (1/2 : ℚ) ≠ 1 ∧
    cwtPeriods (process_aaa_files demoFS "in").1 = [1] := by
  refine ⟨?_, by with_unfolding_all rfl, by norm_num,
    by with_unfolding_all rfl⟩
  intro fs dir
  cases h : fs dir with
  | none => simp [process_aaa_files, h, cwtPeriods]
  | some entries =>
    simp only [process_aaa_files, h]
    exact cwtPeriods_processEntries dir entries

/-- Claim C7: when the input directory does not exist, the batch driver
prints a diagnostic and returns normally — the run's whole observable
behaviour is that one message, with no exception and no file written. -/
theorem C7_missing_directory_noop (fs : FileSystem) (dir : String)
    (h : fs dir = none) :
    process_aaa_files fs dir =
      ([Event.msg ("The directory " ++ dir ++ " does not exist.")],
        Except.ok ()) ∧
    savefigPaths (process_aaa_files fs dir).1 = [] := by
  have h1 : process_aaa_files fs dir =
      ([Event.msg ("The directory " ++ dir ++ " does not exist.")],
        Except.ok ()) := by
    simp [process_aaa_files, h]
  exact ⟨h1, by rw [h1]; rfl⟩

/-- Witness for C7 at a concrete empty file system. -/
theorem C7_missing_directory_noop_witness :
    process_aaa_files noFS "in" =
      ([Event.msg ("The directory " ++ "in" ++ " does not exist.")],
        Except.ok ()) ∧
    savefigPaths (process_aaa_files noFS "in").1 = [] :=
  C7_missing_directory_noop noFS "in" rfl

/-- Claim C9: a call to the scalogram renderer with `scales=None` — for
any values of the other parameters — performs the wavelet transform over
exactly the integer scales 1, 2, ..., 127 (`np.arange(1, 128)`, src
lines 68-69). -/
theorem C9_default_scales_1_to_127 (x y : List ℚ) (w : String) (sp : ℚ)
    (fo fn : String) :
    cwtScalesLists (generate_scalogram x y ⟨w, none, sp, fo, fn⟩) =
      [(List.range 127).map (fun i => i + 1)] := rfl

/-- Claim C5: whenever the loader accepts a file, both returned sequences
have length equal to the declared sample count from the header, and the
time sequence is exactly the first `n` multiples of the header's sampling
interval starting at 0. -/
theorem C5_loader_lengths_and_time_axis (f : AaaFile) (t v : List ℚ)
    (h : load_aaa f = Except.ok (t, v)) :
    ∃ n : Int, ∃ dt : ℚ,
      parseHeader f.headerLine = Except.ok (n, dt) ∧
      (t.length : Int) = n ∧ (v.length : Int) = n ∧
      t = (List.range t.length).map (fun i : Nat => (i : ℚ) * dt) := by
  rcases hcol : read_csv_col0 f.dataRows with e | col
  · simp [load_aaa, hcol] at h
  rcases hhdr : parseHeader f.headerLine with e | nd
  · simp [load_aaa, hcol, hhdr] at h
  obtain ⟨n, dt⟩ := nd
  by_cases hlen : (col.length : Int) = n
  · by_cases hdt : dt = 0
    · simp [load_aaa, hcol, hhdr, hlen, np_arange, hdt] at h
    simp only [load_aaa, hcol, hhdr, hlen, np_arange, hdt, if_pos, if_true,
      if_neg, if_false, ite_true, ite_false, reduceIte, Except.ok.injEq,
      Prod.mk.injEq] at h
    have hnn : 0 ≤ n := by rw [← hlen]; exact Int.natCast_nonneg _
    have hstop : ((n : ℚ) * dt - 0) / dt = ((n : ℚ)) := by
      rw [sub_zero, mul_div_assoc, div_self hdt, mul_one]
    rw [hstop, Int.ceil_intCast] at h
    have hlenmap :
        ((List.range n.toNat).map (fun i : Nat => (0 : ℚ) + (i : ℚ) * dt)).length
          ≤ n.toNat := by simp
    rw [List.take_of_length_le hlenmap] at h
    obtain ⟨ht, hv⟩ := h
    subst ht hv
    refine ⟨n, dt, rfl, ?_, ?_, ?_⟩
    · simp [Int.toNat_of_nonneg hnn]
    · exact hlen
    · simp [zero_add]
  · simp [load_aaa, hcol, hhdr, hlen] at h

/-- Witness for C5 at `demoFile` (declared count 3, interval `0.5`). -/
theorem C5_loader_lengths_and_time_axis_witness :
    ∃ n : Int, ∃ dt : ℚ,
      parseHeader demoFile.headerLine = Except.ok (n, dt) ∧
      (([0, 1/2, 1] : List ℚ).length : Int) = n ∧
      (([0, 1, 0] : List ℚ).length : Int) = n ∧
      ([0, 1/2, 1] : List ℚ) =
        (List.range ([0, 1/2, 1] : List ℚ).length).map (fun i : Nat => (i : ℚ) * dt) :=
  C5_loader_lengths_and_time_axis demoFile [0, 1/2, 1] [0, 1, 0]
    (by with_unfolding_all rfl)

/-- No per-file isolation: an uncaught loader error on any `.aaa` entry of
the listing makes the whole driver loop return an error. -/
theorem processEntries_abort (dir : String)
    (entries : List (String × AaaFile)) (name : String) (f : AaaFile)
    (e : String) (hmem : (name, f) ∈ entries)
    (hext : strEndsWith name ".aaa" = true)
    (herr : load_aaa f = Except.error e) :
    ∃ e2, (processEntries dir entries).2 = Except.error e2 := by
  induction entries with
  | nil => cases hmem
  | cons hd tl ih =>
    obtain ⟨nm, fl⟩ := hd
    by_cases hx : strEndsWith nm ".aaa" = true
    · rcases hl : load_aaa fl with e3 | ⟨xv, yv⟩
      · exact ⟨e3, by simp [processEntries, hx, hl]⟩
      · rcases List.mem_cons.mp hmem with heq | hmem2
        · exfalso
          injection heq with h1 h2
          subst h1; subst h2
          rw [herr] at hl
          cases hl
        · obtain ⟨e2, he2⟩ := ih hmem2
          refine ⟨e2, ?_⟩
          simpa [processEntries, hx, hl] using he2
    · rcases List.mem_cons.mp hmem with heq | hmem2
      · exfalso
        injection heq with h1 h2
        subst h1
        exact hx hext
      · obtain ⟨e2, he2⟩ := ih hmem2
        refine ⟨e2, ?_⟩
        simpa [processEntries, hx] using he2

/-- Claim C6: a file whose data-row count differs from the declared count
in the header makes the loader raise (`assert df.shape[0] == n_entries`,
src line 28), and — with no local handler — any such file in a processed
directory aborts the whole batch invocation with an error. -/
theorem C6_row_count_mismatch_aborts (f : AaaFile) (col : List ℚ)
    (n : Int) (dt : ℚ)
    (hcol : read_csv_col0 f.dataRows = Except.ok col)
    (hhdr : parseHeader f.headerLine = Except.ok (n, dt))
    (hne : (col.length : Int) ≠ n) :
    load_aaa f = Except.error "AssertionError" ∧
    ∀ (fs : FileSystem) (dir name : String)
      (entries : List (String × AaaFile)),
      fs dir = some entries → (name, f) ∈ entries →
      strEndsWith name ".aaa" = true →
      ∃ e, (process_aaa_files fs dir).2 = Except.error e := by
  have hload : load_aaa f = Except.error "AssertionError" := by
    simp [load_aaa, hcol, hhdr, hne]
  refine ⟨hload, ?_⟩
  intro fs dir name entries hfs hmem hext
  have habort := processEntries_abort dir entries name f _ hmem hext hload
  simpa [process_aaa_files, hfs] using habort

/-- Witness for C6 at `badFile` (two rows, declared count 3). -/
theorem C6_row_count_mismatch_aborts_witness :
    load_aaa badFile = Except.error "AssertionError" :=
  (C6_row_count_mismatch_aborts badFile [1, 2] 3 (1/2)
    (by with_unfolding_all rfl) (by with_unfolding_all rfl)
    (by decide)).1

/-- Python negative index `l[-1]` (i.e. `l.reverse[0]`) is the last
element. -/
theorem reverse_getD_zero {α : Type} (l : List α) (d : α) :
    l.reverse.getD 0 d = l.getLastD d := by
  rw [List.getD_eq_getElem?_getD, List.getLastD_eq_getLast?,
    ← List.head?_reverse, List.head?_eq_getElem?]

/-- Python negative index `l[-2]` (i.e. `l.reverse[1]`) is the
second-to-last element, `l[len(l) - 2]`, when the list has at least two
elements. -/
theorem reverse_getD_one {α : Type} (l : List α) (d : α)
    (h : 2 ≤ l.length) :
    l.reverse.getD 1 d = l.getD (l.length - 2) d := by
  rw [List.getD_eq_getElem?_getD, List.getD_eq_getElem?_getD,
    List.getElem?_reverse (by omega)]
  have h2 : l.length - 1 - 1 = l.length - 2 := by omega
  rw [h2]

/-- Claim C8: the loader's header parse yields count `n` and sampling
interval `dt` precisely when the first line, split on commas, has at
least two fields, its second-to-last field (Python `header_line[-2]`,
stripped) parses as the integer `n`, and its last field
(`header_line[-1]`, stripped) parses as the float `dt`. -/
theorem C8_header_second_to_last_and_last (line : String) (n : Int) (dt : ℚ) :
    parseHeader line = Except.ok (n, dt) ↔
      (2 ≤ (splitOnChar ',' line.data).length ∧
       parseInt? (trimChars
         ((splitOnChar ',' line.data).reverse.getD 1 [])) = some n ∧
       parseFloat? (trimChars
         ((splitOnChar ',' line.data).reverse.getD 0 [])) = some dt) := by
  constructor
  · intro h
    simp only [parseHeader] at h
    split at h
    · exact Except.noConfusion h
    next dtv hfl =>
      split at h
      next hlen =>
        split at h
        · exact Except.noConfusion h
        next nv hint =>
          injection h with h2
          injection h2 with hn hdt
          subst hn; subst hdt
          exact ⟨hlen, by rw [reverse_getD_one _ _ hlen]; exact hint,
            by rw [reverse_getD_zero]; exact hfl⟩
      next hlen => exact Except.noConfusion h
  · rintro ⟨hlen, hint, hfl⟩
    rw [reverse_getD_one _ _ hlen] at hint
    rw [reverse_getD_zero] at hfl
    simp only [parseHeader, hfl, hint, hlen, if_true, if_pos]

/-- On a successful run of the driver loop, the loader is invoked exactly
on the `.aaa` entries, in listing order, and the renderer writes exactly
one figure per such entry. -/
theorem processEntries_ok_trace (dir : String)
    (entries : List (String × AaaFile))
    (hok : (processEntries dir entries).2 = Except.ok ()) :
    loadPaths (processEntries dir entries).1
        = (entries.filter (fun p => strEndsWith p.1 ".aaa")).map
            (fun p => dir ++ "/" ++ p.1) ∧
    (savefigPaths (processEntries dir entries).1).length
        = (entries.filter (fun p => strEndsWith p.1 ".aaa")).length := by
  induction entries with
  | nil => exact ⟨rfl, rfl⟩
  | cons hd tl ih =>
    obtain ⟨name, file⟩ := hd
    by_cases hx : strEndsWith name ".aaa" = true
    · rcases hl : load_aaa file with e | ⟨xv, yv⟩
      · exfalso
        simp [processEntries, hx, hl] at hok
      · have hok2 : (processEntries dir tl).2 = Except.ok () := by
          simpa [processEntries, hx, hl] using hok
        obtain ⟨ih1, ih2⟩ := ih hok2
        constructor
        · simp only [processEntries, hx, if_true, hl]
          simp [loadPaths, loadPaths_append, generate_scalogram, ih1,
            List.filter_cons, hx]
        · simp only [processEntries, hx, if_true, hl]
          simp [savefigPaths, savefigPaths_append, generate_scalogram, ih2,
            List.filter_cons, hx]
    · have hok2 : (processEntries dir tl).2 = Except.ok () := by
        simpa [processEntries, hx] using hok
      obtain ⟨ih1, ih2⟩ := ih hok2
      constructor <;> simp [processEntries, hx, List.filter_cons, ih1, ih2]

/-- Claim C10: on an existing input directory whose run completes, the
batch driver invokes the loader exactly for the directory entries whose
name ends in `.aaa` (in listing order, at their joined paths) and invokes
the renderer — one written figure — once per such entry, and for no other
entries. -/
theorem C10_only_aaa_entries (fs : FileSystem) (dir : String)
    (entries : List (String × AaaFile)) (hdir : fs dir = some entries)
    (hok : (process_aaa_files fs dir).2 = Except.ok ()) :
    loadPaths (process_aaa_files fs dir).1
        = (entries.filter (fun p => strEndsWith p.1 ".aaa")).map
            (fun p => dir ++ "/" ++ p.1) ∧
    (savefigPaths (process_aaa_files fs dir).1).length
        = (entries.filter (fun p => strEndsWith p.1 ".aaa")).length := by
  have h2 : (processEntries dir entries).2 = Except.ok () := by
    simpa [process_aaa_files, hdir] using hok
  have h3 := processEntries_ok_trace dir entries h2
  simpa [process_aaa_files, hdir] using h3

/-- Witness for C10 at the one-entry directory `demoFS`. -/
theorem C10_only_aaa_entries_witness :
    loadPaths (process_aaa_files demoFS "in").1
        = ([("sample.aaa", demoFile)].filter
            (fun p => strEndsWith p.1 ".aaa")).map
            (fun p => "in" ++ "/" ++ p.1) ∧
    (savefigPaths (process_aaa_files demoFS "in").1).length
        = ([("sample.aaa", demoFile)].filter
            (fun p => strEndsWith p.1 ".aaa")).length :=
  C10_only_aaa_entries demoFS "in" [("sample.aaa", demoFile)] rfl
    (by with_unfolding_all rfl)
